import Mathlib

/-!
Verification of the LLM-API-Transform-Proxy core against its specification.

The Python sources are shallowly embedded:
  * Python `str` values are embedded as `List Char` (`PyStr`); string
    literals enter through `String.data`.
  * Python `float` values (timestamps, latencies, costs) are embedded as `ℚ`;
    the claims under study only use arithmetic that is exact in both
    representations.
  * Python `dict` payloads are embedded as structures whose optional keys
    are `Option` fields; `None` arguments are `Option.none` one level up.
  * Python exceptions are `Option`/truncated-state returns, mirroring the
    source's `try/except` blocks: a mutation sequence interrupted by an
    exception keeps exactly the mutations executed before the raise.
-/

/-- Embedding of a Python `str` as its list of characters. -/
abbrev PyStr := List Char

/-- Embedding of a Python `bytes` value as a list of byte values. -/
abbrev Bytes := List Nat

/-- Python `str.lower()`. -/
def pyLower (s : PyStr) : PyStr := s.map Char.toLower

/-- Python `str.strip()` with no argument: drop leading and trailing
whitespace. -/
def pyStrip (s : PyStr) : PyStr :=
  ((s.dropWhile Char.isWhitespace).reverse.dropWhile Char.isWhitespace).reverse

/-- Python substring containment `pat in s`. -/
def containsSub (s pat : PyStr) : Bool :=
  (List.range (s.length + 1)).any fun i => pat.isPrefixOf (s.drop i)

/-- Python `s.split(sep)`: split on every occurrence of `sep`, keeping empty
segments.  The result is always nonempty. -/
def pySplit (sep : Char) : PyStr → List PyStr
  | [] => [[]]
  | c :: rest =>
    match pySplit sep rest with
    | [] => [[]]
    | h :: t => if c = sep then [] :: h :: t else (c :: h) :: t

/-- Python `s.split(sep, 1)` when `sep` occurs: the part before the first
occurrence and the whole remainder after it; `none` when `sep` is absent
(where the source's 2-element unpacking would raise `ValueError`). -/
def splitFirst (sep : Char) : PyStr → Option (PyStr × PyStr)
  | [] => none
  | c :: rest =>
    if c = sep then some ([], rest)
    else (splitFirst sep rest).map fun p => (c :: p.1, p.2)

/- ### Base64 (urlsafe alphabet, RFC 4648 §5), as used by
`base64.urlsafe_b64encode` / `base64.urlsafe_b64decode` in
`src/utils/crypto.py` and by data-URL construction in
`src/utils/multimodal.py`.  The decoder is strict; it agrees with Python's
decoder on every well-formed encoding (the only inputs the claims need). -/

/-- The urlsafe base64 alphabet: 6-bit value to character. -/
def b64EncChar (n : Nat) : Char :=
  if n < 26 then Char.ofNat (65 + n)
  else if n < 52 then Char.ofNat (97 + (n - 26))
  else if n < 62 then Char.ofNat (48 + (n - 52))
  else if n = 62 then '-'
  else '_'

/-- Inverse of the urlsafe base64 alphabet. -/
def b64DecChar (c : Char) : Option Nat :=
  let n := c.toNat
  if 65 ≤ n ∧ n ≤ 90 then some (n - 65)
  else if 97 ≤ n ∧ n ≤ 122 then some (n - 97 + 26)
  else if 48 ≤ n ∧ n ≤ 57 then some (n - 48 + 52)
  else if c = '-' then some 62
  else if c = '_' then some 63
  else none

/-- `base64.urlsafe_b64encode`: groups of three bytes become four alphabet
characters; a final group of one or two bytes is padded with `=`. -/
def b64encode : Bytes → PyStr
  | [] => []
  | [b1] => [b64EncChar (b1 / 4), b64EncChar (b1 % 4 * 16), '=', '=']
  | [b1, b2] =>
      [b64EncChar (b1 / 4), b64EncChar (b1 % 4 * 16 + b2 / 16),
       b64EncChar (b2 % 16 * 4), '=']
  | b1 :: b2 :: b3 :: rest =>
      b64EncChar (b1 / 4) :: b64EncChar (b1 % 4 * 16 + b2 / 16) ::
      b64EncChar (b2 % 16 * 4 + b3 / 64) :: b64EncChar (b3 % 64) ::
      b64encode rest

/-- `base64.urlsafe_b64decode` restricted to well-formed input: four
characters decode to three bytes, with `=`-padding only at the very end;
anything else is `none` (Python raises `binascii.Error`). -/
def b64decode : PyStr → Option Bytes
  | [] => some []
  | c1 :: c2 :: c3 :: c4 :: rest =>
    (b64DecChar c1).bind fun n1 =>
    (b64DecChar c2).bind fun n2 =>
    if c3 = '=' ∧ c4 = '=' ∧ rest = [] then
      some [n1 * 4 + n2 / 16]
    else
      (b64DecChar c3).bind fun n3 =>
      if c4 = '=' ∧ rest = [] then
        some [n1 * 4 + n2 / 16, n2 % 16 * 16 + n3 / 4]
      else
        (b64DecChar c4).bind fun n4 =>
        (b64decode rest).map fun bs =>
          (n1 * 4 + n2 / 16) :: (n2 % 16 * 16 + n3 / 4) ::
          (n3 % 4 * 64 + n4) :: bs
  | _ => none

theorem b64DecChar_b64EncChar : ∀ n < 64, b64DecChar (b64EncChar n) = some n := by
  decide

theorem b64EncChar_ne_pad : ∀ n < 64, b64EncChar n ≠ '=' := by
  decide

/-- Round trip of the base64 codec on byte-valued input. -/
theorem b64decode_b64encode (bs : Bytes) (h : ∀ b ∈ bs, b < 256) :
    b64decode (b64encode bs) = some bs := by
  induction bs using b64encode.induct with
  | case1 => rfl
  | case2 b1 =>
    have hb1 : b1 < 256 := h b1 (by simp)
    rw [b64encode, b64decode]
    rw [b64DecChar_b64EncChar _ (by omega), b64DecChar_b64EncChar _ (by omega)]
    simp only [Option.some_bind]
    rw [if_pos (by simp)]
    simp only [Option.some.injEq, List.cons.injEq, and_true]
    omega
  | case3 b1 b2 =>
    have hb1 : b1 < 256 := h b1 (by simp)
    have hb2 : b2 < 256 := h b2 (by simp)
    rw [b64encode, b64decode]
    rw [b64DecChar_b64EncChar _ (by omega), b64DecChar_b64EncChar _ (by omega),
        b64DecChar_b64EncChar _ (by omega)]
    simp only [Option.some_bind]
    rw [if_neg (by intro hc; exact b64EncChar_ne_pad _ (by omega) hc.1)]
    rw [if_pos (by simp)]
    simp only [Option.some.injEq, List.cons.injEq, and_true]
    constructor <;> omega
  | case4 b1 b2 b3 rest ih =>
    have hb1 : b1 < 256 := h b1 (by simp)
    have hb2 : b2 < 256 := h b2 (by simp)
    have hb3 : b3 < 256 := h b3 (by simp)
    have hrest : ∀ b ∈ rest, b < 256 := fun b hb => h b (by simp [hb])
    rw [b64encode, b64decode]
    rw [b64DecChar_b64EncChar _ (by omega), b64DecChar_b64EncChar _ (by omega),
        b64DecChar_b64EncChar _ (by omega), b64DecChar_b64EncChar _ (by omega)]
    simp only [Option.some_bind]
    rw [if_neg (by intro hc; exact b64EncChar_ne_pad _ (by omega) hc.1)]
    rw [if_neg (by intro hc; exact b64EncChar_ne_pad _ (by omega) hc.1)]
    rw [ih hrest]
    simp only [Option.map_some', Option.some.injEq, List.cons.injEq, and_true]
    refine ⟨by omega, by omega, by omega⟩

/- ### Credential pool: `src/core/api_key/selector.py`.

`ApiKey` is the selector's dataclass.  `requests_at_last_rotation` and
`flagged_for_rotation` are set via `getattr`/`setattr` with defaults 0 and
`false`; they are ordinary fields here. -/

structure ApiKey where
  id : PyStr := []
  provider : PyStr := []
  key : PyStr := []
  enabled : Bool := true
  requests_count : Nat := 0
  success_count : Nat := 0
  error_count : Nat := 0
  last_request_time : Option ℚ := none
  rate_limited_until : Option ℚ := none
  total_tokens : Nat := 0
  input_tokens : Nat := 0
  output_tokens : Nat := 0
  avg_latency : ℚ := 0
  cost : ℚ := 0
  last_error : Option PyStr := none
  consecutive_errors : Nat := 0
  last_rotation : Option ℚ := none
  requests_at_last_rotation : Nat := 0
  flagged_for_rotation : Bool := false
  deriving Repr, DecidableEq

/-- The `usage` sub-dictionary of a response; each token key is optional. -/
structure Usage where
  total_tokens : Option Nat := none
  prompt_tokens : Option Nat := none
  completion_tokens : Option Nat := none
  deriving Repr, DecidableEq

/-- The `response_data` dictionary passed to `update_key_stats`; only the
keys the function reads are modelled.  A `None` argument is `Option.none`
one level up (`Option RespData`); a dictionary without these keys is a
`RespData` whose fields are all `none`. -/
structure RespData where
  usage : Option Usage := none
  model : Option PyStr := none
  request_start_time : Option ℚ := none
  error : Option PyStr := none
  deriving Repr, DecidableEq

/-- `ApiKey.success_rate` (property). -/
def success_rate (k : ApiKey) : ℚ :=
  if k.requests_count = 0 then 1 else (k.success_count : ℚ) / k.requests_count

/-- `ApiKey.needs_rotation` (property), evaluated at time `now`.  The float
comparison `error_count / requests_count > 0.2` is exact rational
arithmetic here. -/
def needs_rotation (k : ApiKey) (now : ℚ) : Bool :=
  if k.consecutive_errors ≥ 3 then true
  else if k.requests_count > 0 ∧
      (k.error_count : ℚ) / k.requests_count > 1 / 5 then true
  else
    match k.last_rotation with
    | none => false
    | some lr =>
      if (k.requests_count : ℤ) - k.requests_at_last_rotation > 10000 then true
      else if now - lr > 7 * 24 * 60 * 60 then true
      else false

/-- `ApiKeySelector._calculate_usage_cost`: the hard-coded pricing table,
with decimal float literals as exact rationals. -/
def calculate_usage_cost (provider : PyStr) (usage : Usage)
    (model : Option PyStr) : ℚ :=
  let price : ℚ × ℚ :=
    if provider = "openai".data then
      match model with
      | some m =>
        if m = "gpt-4".data then (3 / 100000, 6 / 100000)
        else if m = "gpt-3.5-turbo".data then (1 / 1000000, 2 / 1000000)
        else (5 / 1000000, 1 / 100000)
      | none => (5 / 1000000, 1 / 100000)
    else if provider = "anthropic".data then
      match model with
      | some m =>
        if m = "claude-3-opus".data then (3 / 100000, 15 / 100000)
        else if m = "claude-3-sonnet".data then (13 / 1000000, 38 / 1000000)
        else if m = "claude-3-haiku".data then (2 / 1000000, 15 / 1000000)
        else (1 / 100000, 3 / 100000)
      | none => (1 / 100000, 3 / 100000)
    else if provider = "gemini".data then (1 / 1000000, 2 / 1000000)
    else if provider = "deepseek".data then (2 / 1000000, 4 / 1000000)
    else (5 / 1000000, 1 / 100000)
  (usage.prompt_tokens.getD 0 : ℚ) * price.1 +
    (usage.completion_tokens.getD 0 : ℚ) * price.2

/-- The trailing `needs_rotation` check of `update_key_stats`
(`_flag_key_for_rotation` only sets the flag). -/
def flagCheck (k : ApiKey) (now : ℚ) : ApiKey :=
  if needs_rotation k now then { k with flagged_for_rotation := true } else k

/-- The `if response_data and 'usage' in response_data:` block of
`update_key_stats`: token counters and cost. -/
def applyUsage (key : ApiKey) (u : Usage) (model : Option PyStr) : ApiKey :=
  let key := { key with
    total_tokens := key.total_tokens + u.total_tokens.getD 0
    input_tokens := key.input_tokens + u.prompt_tokens.getD 0
    output_tokens := key.output_tokens + u.completion_tokens.getD 0 }
  let c := calculate_usage_cost key.provider u model
  if c > 0 then { key with cost := key.cost + c } else key

/-- The `if 'request_start_time' in response_data:` block of
`update_key_stats`: the latency moving average. -/
def applyLatency (key : ApiKey) (now t0 : ℚ) : ApiKey :=
  let latency := now - t0
  if key.avg_latency = 0 then { key with avg_latency := latency }
  else { key with avg_latency := 9 / 10 * key.avg_latency + 1 / 10 * latency }

/-- The status-code dispatch on the failure path of `update_key_stats`
(`429` / `401,403` / `>= 500`), followed by the rotation check. -/
def applyStatusCode (key : ApiKey) (sc : ℤ) (now : ℚ) : ApiKey :=
  if sc = 429 then
    let backoff : Nat := min (60 * 2 ^ (key.consecutive_errors - 1)) 3600
    flagCheck { key with rate_limited_until := some (now + backoff) } now
  else if sc = 401 ∨ sc = 403 then
    flagCheck { key with enabled := false } now
  else if sc ≥ 500 then
    flagCheck { key with rate_limited_until := some (now + 30) } now
  else
    flagCheck key now

/-- `ApiKeySelector.update_key_stats`.  The whole body runs inside
`try/except Exception`; when `response_data` is `None` the unguarded
membership tests `'request_start_time' in response_data` (success path) and
`'error' in response_data` (failure path) raise `TypeError`, and when
`status_code` is `None` on the failure path `status_code >= 500` raises
`TypeError`; in each case the update stops there with the mutations
executed so far. -/
def update_key_stats (key : ApiKey) (success : Bool) (status_code : Option ℤ)
    (response_data : Option RespData) (now : ℚ) : ApiKey :=
  let key := { key with
    requests_count := key.requests_count + 1
    last_request_time := some now }
  if success then
    let key := { key with
      success_count := key.success_count + 1
      consecutive_errors := 0 }
    match response_data with
    | none => key  -- TypeError at `'request_start_time' in response_data`
    | some rd =>
      let key :=
        match rd.usage with
        | none => key
        | some u => applyUsage key u rd.model
      let key :=
        match rd.request_start_time with
        | none => key
        | some t0 => applyLatency key now t0
      flagCheck key now
  else
    let key := { key with
      error_count := key.error_count + 1
      consecutive_errors := key.consecutive_errors + 1 }
    match response_data with
    | none => key  -- TypeError at `'error' in response_data`
    | some rd =>
      let key :=
        match rd.error with
        | none => key
        | some e => { key with last_error := some (e.take 255) }
      match status_code with
      | none => key  -- TypeError at `status_code >= 500`
      | some sc => applyStatusCode key sc now

/- ### Credential pool statistics, manager variant:
`src/utils/api_key_manager.py` (`ApiKeyManager.record_request` acting on one
`ApiKeyStats` entry that is present in the pool). -/

structure ApiKeyStats where
  key : PyStr := []
  requests_count : Nat := 0
  last_request_time : ℚ := 0
  rate_limit_reset_time : ℚ := 0
  is_rate_limited : Bool := false
  error_count : Nat := 0
  success_count : Nat := 0
  deriving Repr, DecidableEq

/-- `ApiKeyManager.record_request` on the stats entry for `(provider, key)`
(the method is a no-op when the entry is absent, which preserves any
invariant trivially). -/
def record_request (stats : ApiKeyStats) (success : Bool)
    (status_code : Option ℤ) (now : ℚ) : ApiKeyStats :=
  let stats := { stats with
    requests_count := stats.requests_count + 1
    last_request_time := now }
  if success then
    { stats with success_count := stats.success_count + 1 }
  else
    let stats := { stats with error_count := stats.error_count + 1 }
    if status_code = some 429 then
      { stats with is_rate_limited := true, rate_limit_reset_time := now + 60 }
    else stats

/- ### C1: the counting invariant. -/

/-- One `update_key_stats` call's arguments (one statistics observation). -/
structure SelEvent where
  success : Bool
  status_code : Option ℤ
  response_data : Option RespData
  now : ℚ

/-- A finite sequence of `update_key_stats` calls on one key. -/
def applySelEvents (k : ApiKey) (es : List SelEvent) : ApiKey :=
  es.foldl
    (fun k e => update_key_stats k e.success e.status_code e.response_data e.now)
    k

/-- One `record_request` call's arguments. -/
structure MgrEvent where
  success : Bool
  status_code : Option ℤ
  now : ℚ

/-- A finite sequence of `record_request` calls on one stats entry. -/
def applyMgrEvents (s : ApiKeyStats) (es : List MgrEvent) : ApiKeyStats :=
  es.foldl (fun s e => record_request s e.success e.status_code e.now) s

/-- The counting invariant on a selector key. -/
def statsInv (k : ApiKey) : Prop :=
  k.requests_count = k.success_count + k.error_count

/-- The counting invariant on a manager stats entry. -/
def mgrInv (s : ApiKeyStats) : Prop :=
  s.requests_count = s.success_count + s.error_count

/-- `flagCheck` only touches `flagged_for_rotation`. -/
theorem flagCheck_counts (k : ApiKey) (now : ℚ) :
    (flagCheck k now).requests_count = k.requests_count ∧
    (flagCheck k now).success_count = k.success_count ∧
    (flagCheck k now).error_count = k.error_count := by
  unfold flagCheck; split <;> simp

/-- `applyUsage` only touches token and cost counters. -/
theorem applyUsage_counts (k : ApiKey) (u : Usage) (m : Option PyStr) :
    (applyUsage k u m).requests_count = k.requests_count ∧
    (applyUsage k u m).success_count = k.success_count ∧
    (applyUsage k u m).error_count = k.error_count := by
  simp only [applyUsage]; split <;> simp

/-- `applyLatency` only touches the latency average. -/
theorem applyLatency_counts (k : ApiKey) (now t0 : ℚ) :
    (applyLatency k now t0).requests_count = k.requests_count ∧
    (applyLatency k now t0).success_count = k.success_count ∧
    (applyLatency k now t0).error_count = k.error_count := by
  simp only [applyLatency]; split <;> simp

/-- `applyStatusCode` never touches the three counters. -/
theorem applyStatusCode_counts (k : ApiKey) (sc : ℤ) (now : ℚ) :
    (applyStatusCode k sc now).requests_count = k.requests_count ∧
    (applyStatusCode k sc now).success_count = k.success_count ∧
    (applyStatusCode k sc now).error_count = k.error_count := by
  unfold applyStatusCode
  split
  · exact flagCheck_counts _ _
  split
  · exact flagCheck_counts _ _
  split
  · exact flagCheck_counts _ _
  · exact flagCheck_counts _ _

theorem update_key_stats_counts (k : ApiKey) (s : Bool) (sc : Option ℤ)
    (rd : Option RespData) (now : ℚ) :
    (update_key_stats k s sc rd now).requests_count = k.requests_count + 1 ∧
    (update_key_stats k s sc rd now).success_count
      = k.success_count + (if s then 1 else 0) ∧
    (update_key_stats k s sc rd now).error_count
      = k.error_count + (if s then 0 else 1) := by
  cases s with
  | true =>
    cases rd with
    | none => simp [update_key_stats]
    | some d =>
      cases hu : d.usage <;> cases ht : d.request_start_time <;>
        simp [update_key_stats, hu, ht, flagCheck_counts,
              applyUsage_counts, applyLatency_counts]
  | false =>
    cases rd with
    | none => simp [update_key_stats]
    | some d =>
      cases he : d.error <;> cases sc <;>
        simp [update_key_stats, he, applyStatusCode_counts]

theorem record_request_counts (s : ApiKeyStats) (b : Bool) (sc : Option ℤ)
    (now : ℚ) :
    (record_request s b sc now).requests_count = s.requests_count + 1 ∧
    (record_request s b sc now).success_count
      = s.success_count + (if b then 1 else 0) ∧
    (record_request s b sc now).error_count
      = s.error_count + (if b then 0 else 1) := by
  cases b with
  | true => simp [record_request]
  | false => simp [record_request]; split <;> simp

/-- C1.  For every ApiKey and every finite sequence of statistics updates
(`update_key_stats` calls with arbitrary success flag, status code and
response data, and `record_request` calls likewise), the invariant
`requests_count = success_count + error_count` holds after the sequence
whenever it held before it (in particular for a fresh key, where all three
counters are 0). -/
theorem c1_requests_eq_success_plus_error
    (k : ApiKey) (es : List SelEvent) (s : ApiKeyStats) (ms : List MgrEvent)
    (hk : statsInv k) (hs : mgrInv s) :
    statsInv (applySelEvents k es) ∧ mgrInv (applyMgrEvents s ms) := by
  constructor
  · induction es generalizing k with
    | nil => exact hk
    | cons e rest ih =>
      apply ih
      obtain ⟨h1, h2, h3⟩ :=
        update_key_stats_counts k e.success e.status_code e.response_data e.now
      unfold statsInv at *
      rw [h1, h2, h3]
      cases e.success <;> simp <;> omega
  · induction ms generalizing s with
    | nil => exact hs
    | cons e rest ih =>
      apply ih
      obtain ⟨h1, h2, h3⟩ := record_request_counts s e.success e.status_code e.now
      unfold mgrInv at *
      rw [h1, h2, h3]
      cases e.success <;> simp <;> omega

/-- Witness for C1 at a concrete key and a concrete event sequence. -/
theorem c1_requests_eq_success_plus_error_witness :
    statsInv (applySelEvents {}
      [⟨true, none, some {}, 10⟩, ⟨false, some 429, none, 20⟩]) ∧
    mgrInv (applyMgrEvents {} [⟨true, none, 1⟩, ⟨false, some 429, 2⟩]) :=
  c1_requests_eq_success_plus_error {} _ {} _ rfl rfl

/- ### C2: the 429 exponential backoff. -/

theorem flagCheck_rate_limited (k : ApiKey) (now : ℚ) :
    (flagCheck k now).rate_limited_until = k.rate_limited_until := by
  unfold flagCheck; split <;> simp

/-- C2.  The spec asks: after a failed observation with status 429 and prior
`consecutive_errors = k`, `rate_limited_until = now + min(60·2^k, 3600)`.
The code computes exactly this formula whenever `response_data` is a
dictionary (first conjunct: the increment of `consecutive_errors` happens
before the backoff reads `consecutive_errors - 1`, so the exponent is the
prior value).  But when `response_data` is the documented default `None`,
the unguarded test `'error' in response_data` raises `TypeError` before the
429 branch, the blanket `except` swallows it, and `rate_limited_until` is
never set (second conjunct) - the code slips on its own documented
signature. -/
theorem c2_429_backoff :
    (∀ (k : ApiKey) (rd : RespData) (now : ℚ),
      (update_key_stats k false (some 429) (some rd) now).rate_limited_until
        = some (now + ((min (60 * 2 ^ k.consecutive_errors) 3600 : ℕ) : ℚ))) ∧
    (update_key_stats {} false (some 429) none 1000).rate_limited_until
      = none ∧ ({} : ApiKey).consecutive_errors = 0 := by
  refine ⟨fun k rd now => ?_, rfl, rfl⟩
  cases he : rd.error <;>
    simp [update_key_stats, he, applyStatusCode, flagCheck_rate_limited]

/- ### Model resolver: `src/service/model_transformer_service.py`, with its
data access through `src/dao/model_dao.py` and `src/dao/api_key_dao.py`.
A database snapshot is a list of rows in `ORDER BY id` order.

The DAO query functions and the three `_`-prefixed stage helpers are
`@staticmethod`s and are embedded by their bodies.  `find_best_model`
itself, however, fetches its data through `ModelService` /
`ApiKeyService` *instance* methods invoked on the class
(`model_transformer_service.py` lines 25, 30, 40, 47, 67), so those calls
mis-bind their single argument to `self` and raise `TypeError`; see C3
below. -/

/-- A `modelconfig` row (the columns the resolver reads). -/
structure ModelConfig where
  id : Nat := 0
  route_key : PyStr := []
  target_model : PyStr := []
  provider : PyStr := []
  prompt_keywords : PyStr := []
  enabled : Bool := true
  deriving Repr, DecidableEq

/-- An `api_key_pool` row (the columns key lookup reads). -/
structure PoolKey where
  id : Nat := 0
  provider : PyStr := []
  is_active : Bool := true
  deriving Repr, DecidableEq

/-- `ModelDAO.get_models_by_route_key`: rows with the given `route_key` that
are enabled, in id order. -/
def get_models_by_route_key (db : List ModelConfig) (rk : PyStr) :
    List ModelConfig :=
  db.filter fun m => m.route_key == rk && m.enabled

/-- `ModelDAO.get_all_models`: every row (enabled or not), in id order. -/
def get_all_models (db : List ModelConfig) : List ModelConfig := db

/-- `ApiKeyDAO.get_active_keys_by_provider`: rows of the provider with
`is_active = true`, in id order. -/
def get_active_keys_by_provider (pool : List PoolKey) (p : PyStr) :
    List PoolKey :=
  pool.filter fun k => k.provider == p && k.is_active

/-- `ModelTransformerService._find_exact_match`. -/
def find_exact_match (source_model : PyStr) (all_models : List ModelConfig) :
    Option ModelConfig :=
  all_models.find? fun m => m.enabled && m.target_model == source_model

/-- `ModelTransformerService._apply_transformer_logic`.  Note the `claude`
branch demands `'deepseek-chat' in target_model` on top of
`provider == 'deepseek'`; the `gpt` and `gemini` branches do not. -/
def apply_transformer_logic (source_model : PyStr)
    (all_models : List ModelConfig) : Option ModelConfig :=
  if containsSub (pyLower source_model) "claude".data then
    all_models.find? fun m =>
      m.enabled && m.provider == "deepseek".data &&
        containsSub m.target_model "deepseek-chat".data
  else if containsSub (pyLower source_model) "gpt".data then
    all_models.find? fun m => m.enabled && m.provider == "deepseek".data
  else if containsSub (pyLower source_model) "gemini".data then
    all_models.find? fun m => m.enabled && m.provider == "deepseek".data
  else none

/-- `ModelTransformerService._find_general_match`: for each enabled row, in
order, test provider-name match, then route-key partial match, then keyword
match. -/
def find_general_match (source_model : PyStr)
    (all_models : List ModelConfig) : Option ModelConfig :=
  all_models.find? fun m =>
    m.enabled &&
      (m.provider.isPrefixOf source_model ||
       (containsSub source_model m.route_key ||
        containsSub m.route_key source_model) ||
       (!m.prompt_keywords.isEmpty &&
        (pySplit ',' m.prompt_keywords).any fun kw =>
          containsSub source_model (pyStrip kw)))

/- ### C3: the resolver's key-availability behaviour. -/

/-- The exception outcome of an embedded Python call. -/
inductive PyError where
  | typeError
  deriving Repr, DecidableEq

/-- A class-level call of `ModelService.get_models_by_route_key` - an
*instance* method with parameters `(self, route_key)` that serves the
`ModelDAO` query when properly bound.  Supplying both parameters runs the
query; supplying a single positional argument (as
`ModelTransformerService.find_best_model` line 25 does with
`ModelService.get_models_by_route_key(source_model)`) binds it to `self`,
leaves `route_key` unfilled, and CPython raises `TypeError` before the
body runs. -/
def classcall_get_models_by_route_key (db : List ModelConfig)
    (positional_args : List PyStr) : Except PyError (List ModelConfig) :=
  match positional_args with
  | [_self, route_key] => Except.ok (get_models_by_route_key db route_key)
  | _ => Except.error PyError.typeError

/-- `ModelTransformerService.find_best_model` as executed.  Its first
statement is the one-argument class-level call modelled by
`classcall_get_models_by_route_key db [source_model]`, which raises
`TypeError`; the method installs no handler, so every invocation raises
before any stage logic runs (the later statements at lines 30, 40, 47 and
67 repeat the same unbound-call pattern on `ModelService.get_all_models`
and `ApiKeyService.get_active_keys_by_provider`).  The snapshot arguments
stand for the database and pool state the queries would have read. -/
def find_best_model (_db : List ModelConfig) (_pool : List PoolKey)
    (_source_model : PyStr) (_enable_transformer : Bool) :
    Except PyError (Option ModelConfig) :=
  Except.error PyError.typeError

/-- C3.  The claim describes a resolver in which every stage that returns
a row has an available key and `NoAvailableKey` appears only after all
stages exhaust.  The code cannot exhibit this behaviour at all: the first
statement of `find_best_model` invokes the instance method
`ModelService.get_models_by_route_key` on the class with one positional
argument (first conjunct: such a call raises `TypeError`), so every
invocation - for every database snapshot, pool state, requested model and
transformer flag - raises before any stage runs (second conjunct); the
resolver never returns a `ModelConfig`, never consults key availability,
and never emits `NoAvailableKey`. -/
theorem c3_resolver_always_raises (db : List ModelConfig)
    (pool : List PoolKey) (source_model : PyStr) (enable_transformer : Bool) :
    classcall_get_models_by_route_key db [source_model] =
      Except.error PyError.typeError ∧
    find_best_model db pool source_model enable_transformer =
      Except.error PyError.typeError :=
  ⟨rfl, rfl⟩

/-- An enabled deepseek row whose target model is not `deepseek-chat`. -/
def dsReasonerRow : ModelConfig :=
  { id := 1, route_key := "ds".data, target_model := "deepseek-reasoner".data,
    provider := "deepseek".data, prompt_keywords := [], enabled := true }

/-- An enabled deepseek row whose target model contains `deepseek-chat`. -/
def dsChatRow : ModelConfig :=
  { id := 2, route_key := "ds-chat".data, target_model := "deepseek-chat".data,
    provider := "deepseek".data, prompt_keywords := [], enabled := true }

/-- C4, counterexample.  The claim "any enabled deepseek row qualifies for
the claude transformer rule" is false: for the request `claude-3-sonnet`
and a table holding one enabled `provider = deepseek` row (target
`deepseek-reasoner`), the transformer stage returns nothing, because the
claude branch additionally requires `'deepseek-chat' in target_model`. -/
theorem c4_counterexample :
    containsSub (pyLower "claude-3-sonnet".data) "claude".data = true ∧
    dsReasonerRow.enabled = true ∧
    dsReasonerRow.provider = "deepseek".data ∧
    apply_transformer_logic "claude-3-sonnet".data [dsReasonerRow] = none := by
  decide

/-- C4, amended.  For a requested name containing `claude`
(case-insensitively), the transformer stage returns exactly the first
enabled row with `provider = deepseek` whose `target_model` contains
`deepseek-chat` (and `none` when there is no such row, even if other
enabled deepseek rows exist). -/
theorem c4_claude_requires_deepseek_chat (source : PyStr)
    (models : List ModelConfig)
    (h : containsSub (pyLower source) "claude".data = true) :
    apply_transformer_logic source models =
      models.find? fun m =>
        m.enabled && m.provider == "deepseek".data &&
          containsSub m.target_model "deepseek-chat".data := by
  unfold apply_transformer_logic
  rw [if_pos h]

/-- Witness for C4 (amended): with both deepseek rows present, the claude
rule picks the `deepseek-chat` row, skipping the reasoner row. -/
theorem c4_claude_requires_deepseek_chat_witness :
    containsSub (pyLower "claude-3".data) "claude".data = true ∧
    apply_transformer_logic "claude-3".data [dsReasonerRow, dsChatRow] =
      List.find?
        (fun m => m.enabled && m.provider == "deepseek".data &&
          containsSub m.target_model "deepseek-chat".data)
        [dsReasonerRow, dsChatRow] :=
  ⟨by decide, c4_claude_requires_deepseek_chat "claude-3".data _ (by decide)⟩

/- ### Streaming: `BaseProvider._handle_stream_response` in
`src/providers/base.py` and the frame writer in
`ChatCompletionService.create_stream_response`
(`src/service/chat_completion_service.py`).  `json.loads` is Python stdlib
and is abstracted as a `parse` parameter (`none` = `JSONDecodeError`). -/

/-- `BaseProvider._handle_stream_response`: the loop over
`resp.aiter_lines()`. -/
def handle_stream_response {α : Type} (parse : PyStr → Option α) :
    List PyStr → List α
  | [] => []
  | line :: rest =>
    if !(pyStrip line).isEmpty then
      if "data: ".data.isPrefixOf line then
        let data := pyStrip (line.drop 6)
        if data = "[DONE]".data then []
        else
          match parse data with
          | some j => j :: handle_stream_response parse rest
          | none => handle_stream_response parse rest
      else handle_stream_response parse rest
    else handle_stream_response parse rest

/-- A server-sent line the loop accepts: non-blank and starting with
`data: `. -/
def isDataLine (l : PyStr) : Bool :=
  !(pyStrip l).isEmpty && "data: ".data.isPrefixOf l

/-- The payload of a `data: ` line: the text after the 6-character marker,
stripped. -/
def dataPayload (l : PyStr) : PyStr := pyStrip (l.drop 6)

/-- The spec's declarative reading of the streaming contract: the parsed
payloads of the `data: ` lines that precede the first `[DONE]` payload. -/
def spec_stream {α : Type} (parse : PyStr → Option α)
    (lines : List PyStr) : List α :=
  ((((lines.filter isDataLine).map dataPayload).takeWhile
      fun d => d ≠ "[DONE]".data).filterMap parse)

theorem handle_stream_eq_spec {α : Type} (parse : PyStr → Option α)
    (lines : List PyStr) :
    handle_stream_response parse lines = spec_stream parse lines := by
  induction lines with
  | nil => rfl
  | cons l rest ih =>
    by_cases h1 : (pyStrip l).isEmpty
    · have hd : isDataLine l = false := by simp [isDataLine, h1]
      simp [handle_stream_response, spec_stream, h1, hd] at ih ⊢
      exact ih
    · by_cases h2 : "data: ".data.isPrefixOf l
      · have hd : isDataLine l = true := by simp [isDataLine, h1, h2]
        by_cases h3 : pyStrip (l.drop 6) = "[DONE]".data
        · simp [handle_stream_response, spec_stream, h1, h2, hd, dataPayload, h3]
        · cases hp : parse (pyStrip (l.drop 6)) <;>
            simp [handle_stream_response, spec_stream, h1, h2, hd,
                  dataPayload, h3, hp] at ih ⊢ <;>
            exact ih
      · have hd : isDataLine l = false := by simp [isDataLine, h2]
        simp [handle_stream_response, spec_stream, h1, h2, hd] at ih ⊢
        exact ih

/-- `ChatCompletionService.create_stream_response`'s framing: each yielded
chunk becomes one `data: <json>\n\n` frame, and a final `data: [DONE]\n\n`
frame always follows.  `json.dumps` is abstracted as `serialize`. -/
def create_stream_frames {α : Type} (serialize : α → PyStr)
    (chunks : List α) : List PyStr :=
  (chunks.map fun c => "data: ".data ++ serialize c ++ "\n\n".data) ++
    ["data: [DONE]\n\n".data]

/-- C5.  The streaming parser yields exactly the JSON decodings of the
payloads of `data: ` lines preceding the first `[DONE]` payload, in order,
skipping blank lines and unparsable payloads (first conjunct: the loop
equals the declarative description); consequently an empty upstream body
produces no chunks, so the client receives exactly one
`data: [DONE]\n\n` frame (second conjunct). -/
theorem c5_stream_parser_contract :
    (∀ (α : Type) (parse : PyStr → Option α) (lines : List PyStr),
       handle_stream_response parse lines = spec_stream parse lines) ∧
    (∀ (α : Type) (parse : PyStr → Option α) (serialize : α → PyStr),
       create_stream_frames serialize (handle_stream_response parse []) =
         ["data: [DONE]\n\n".data]) :=
  ⟨fun _ parse lines => handle_stream_eq_spec parse lines,
   fun _ _ _ => rfl⟩

/- ### Multimodal preprocessing: `src/utils/multimodal.py`.

A content part is text, an `image_url` dict (its url plus the
`_needs_download` mark, whether at item level or inside the `image_url`
dict), or any other value, which every pass copies through.  The
filesystem is a function `fs : path -> Option bytes` (`none` = the path
does not exist), `mimetypes.guess_type` is `mimeOf`, and the deferred
downloader `download_and_encode_image` is `dl : url -> Option dataUrl`
(`none` = any fetch/type failure). -/

inductive ContentItem where
  | text (t : PyStr)
  | image_url (url : PyStr) (needs_download : Bool)
  | other
  deriving Repr, DecidableEq

/-- `MultimodalProcessor.SUPPORTED_IMAGE_FORMATS`. -/
def SUPPORTED_IMAGE_FORMATS : List PyStr :=
  ["image/jpeg".data, "image/jpg".data, "image/png".data, "image/gif".data,
   "image/webp".data, "image/bmp".data, "image/tiff".data,
   "image/svg+xml".data]

def isSupportedImage (m : PyStr) : Bool :=
  SUPPORTED_IMAGE_FORMATS.any fun f => f == m

/-- `MultimodalProcessor.encode_image_to_base64`: `none` is a raised
exception (missing file, or MIME not in the supported set - including an
unrecognized extension, where `guess_type` returns `None`).  The SVG
text-mode read re-encodes to the same bytes and is not distinguished. -/
def encode_image_to_base64 (fs : PyStr → Option Bytes)
    (mimeOf : PyStr → Option PyStr) (path : PyStr) : Option PyStr :=
  match fs path with
  | none => none
  | some bytes =>
    match mimeOf path with
    | some mime =>
      if isSupportedImage mime then
        some ("data:".data ++ mime ++ ";base64,".data ++ b64encode bytes)
      else none
    | none => none

/-- `MultimodalProcessor.process_message_content` (the local-file pass).
The exception branch of the local-file case appends the original item
unchanged. -/
def process_message_content (fs : PyStr → Option Bytes)
    (mimeOf : PyStr → Option PyStr) (content : List ContentItem) :
    List ContentItem :=
  content.map fun item =>
    match item with
    | .text t => .text t
    | .other => .other
    | .image_url url dl =>
      if "data:".data.isPrefixOf url then .image_url url dl
      else if "http://".data.isPrefixOf url ||
          "https://".data.isPrefixOf url then .image_url url true
      else if (fs url).isSome then
        match encode_image_to_base64 fs mimeOf url with
        | some encoded => .image_url encoded dl
        | none => .image_url url dl
      else .image_url url dl

/-- `MultimodalProcessor.download_pending_images` (the deferred pass):
marked images are fetched; on failure the original URL is kept; the mark
is removed either way. -/
def download_pending_images (dl : PyStr → Option PyStr)
    (content : List ContentItem) : List ContentItem :=
  content.map fun item =>
    match item with
    | .image_url url true =>
      (match dl url with
       | some dataUrl => .image_url dataUrl false
       | none => .image_url url false)
    | .image_url url false => .image_url url false
    | x => x

/-- The two multimodal passes as run by the chat path: local-file pass,
then deferred downloads. -/
def multimodal_preprocess (fs : PyStr → Option Bytes)
    (mimeOf : PyStr → Option PyStr) (dl : PyStr → Option PyStr)
    (content : List ContentItem) : List ContentItem :=
  download_pending_images dl (process_message_content fs mimeOf content)

/-- A concrete filesystem with one existing file, `doc.pdf`. -/
def pdfFs : PyStr → Option Bytes := fun p =>
  if p == "doc.pdf".data then some [37, 80, 68, 70] else none

/-- `mimetypes.guess_type` on that file: `application/pdf`. -/
def pdfMime : PyStr → Option PyStr := fun p =>
  if p == "doc.pdf".data then some "application/pdf".data else none

/-- A downloader that always fails (no network). -/
def noDl : PyStr → Option PyStr := fun _ => none

/-- C6, counterexample.  An existing local path with an unsupported MIME
type is not rejected: `encode_image_to_base64` raises, the `except` branch
keeps the original part, and after both passes the part still refers to
the local file `doc.pdf`. -/
theorem c6_counterexample :
    multimodal_preprocess pdfFs pdfMime noDl
        [ContentItem.image_url "doc.pdf".data false] =
      [ContentItem.image_url "doc.pdf".data false] ∧
    (pdfFs "doc.pdf".data).isSome = true ∧
    "data:".data.isPrefixOf "doc.pdf".data = false := by
  decide

/-- C6, amended.  For an existing local path (neither a data URL nor an
http(s) URL): when the extension maps to a supported image MIME type the
part's url is replaced by the base64 data URL of the file's bytes; when
the MIME type is unsupported or unrecognized, the part is passed through
unchanged (the request is not failed). -/
theorem c6_local_path_handling (fs : PyStr → Option Bytes)
    (mimeOf : PyStr → Option PyStr) (dl : PyStr → Option PyStr)
    (url : PyStr) (b : Bytes)
    (hfs : fs url = some b)
    (hnd : "data:".data.isPrefixOf url = false)
    (hnh : ("http://".data.isPrefixOf url ||
            "https://".data.isPrefixOf url) = false) :
    multimodal_preprocess fs mimeOf dl [ContentItem.image_url url false] =
      [match mimeOf url with
       | some m =>
         if isSupportedImage m then
           ContentItem.image_url
             ("data:".data ++ m ++ ";base64,".data ++ b64encode b) false
         else ContentItem.image_url url false
       | none => ContentItem.image_url url false] := by
  have hnd' : ¬ ("data:".data <+: url) := by
    simpa [← List.isPrefixOf_iff_prefix] using hnd
  have hh : ¬ ("http://".data <+: url) ∧ ¬ ("https://".data <+: url) := by
    simpa [← List.isPrefixOf_iff_prefix, not_or] using hnh
  unfold multimodal_preprocess process_message_content
    download_pending_images encode_image_to_base64
  cases hm : mimeOf url with
  | none => simp [hfs, hnd', hh.1, hh.2, hm]
  | some m =>
    by_cases hs : isSupportedImage m <;> simp [hfs, hnd', hh.1, hh.2, hm, hs]

/-- Witness for C6 (amended) at the concrete `doc.pdf` snapshot. -/
theorem c6_local_path_handling_witness :
    pdfFs "doc.pdf".data = some [37, 80, 68, 70] ∧
    multimodal_preprocess pdfFs pdfMime noDl
        [ContentItem.image_url "doc.pdf".data false] =
      [match pdfMime "doc.pdf".data with
       | some m =>
         if isSupportedImage m then
           ContentItem.image_url
             ("data:".data ++ m ++ ";base64,".data ++
               b64encode [37, 80, 68, 70]) false
         else ContentItem.image_url "doc.pdf".data false
       | none => ContentItem.image_url "doc.pdf".data false] :=
  ⟨by decide, c6_local_path_handling pdfFs pdfMime noDl "doc.pdf".data
    [37, 80, 68, 70] (by decide) (by decide) (by decide)⟩

/- ### Anthropic adapter content conversion:
`AnthropicAdapter._convert_content_to_claude_format` in
`src/adapters/anthropic_adapter.py`, with
`MultimodalProcessor.extract_base64_data`.  Python's lenient
`base64.b64decode` (stdlib) is abstracted as a success predicate
`decodeOk`. -/

/-- A message content value: a plain string, a list of parts, or any other
value (converted via `str()`, whose text is carried as `repr`, with its
Python truthiness `truthy`). -/
inductive PyContent where
  | str (s : PyStr)
  | items (l : List ContentItem)
  | otherVal (truthy : Bool) (repr : PyStr)
  deriving Repr, DecidableEq

/-- A Claude-shaped content block. -/
inductive ClaudeBlock where
  | text (t : PyStr)
  | imageB64 (media_type : PyStr) (data : PyStr)
  | imageUrl (url : PyStr)
  deriving Repr, DecidableEq

/-- `MultimodalProcessor.extract_base64_data`, reduced to the media type
(the adapter re-reads the data part itself): `none` is a raised exception -
no comma in the URL (`ValueError` from unpacking), or `base64.b64decode`
failing on the part after the first comma. -/
def extract_base64_mime (decodeOk : PyStr → Bool) (url : PyStr) :
    Option PyStr :=
  if "data:".data.isPrefixOf url then
    match splitFirst ',' url with
    | none => none
    | some (header, data) =>
      let mime :=
        (((splitFirst ':' (header.takeWhile fun c => c ≠ ';')).map
          Prod.snd).getD []).takeWhile fun c => c ≠ ':'
      if decodeOk data then some mime else none
  else none

/-- One content part's translation inside
`_convert_content_to_claude_format`: a text part keeps its text; an
`image_url` part with a data URL becomes a base64 image block whose data is
`url.split(',')[1]`, falling back to a text placeholder with the first 50
URL characters when extraction fails; any other URL becomes a text
placeholder with the full URL; parts of any other type are dropped. -/
def anthropic_item_blocks (decodeOk : PyStr → Bool) (item : ContentItem) :
    List ClaudeBlock :=
  match item with
  | .text t => [.text t]
  | .other => []
  | .image_url url _ =>
    if "data:".data.isPrefixOf url then
      match extract_base64_mime decodeOk url with
      | some mime => [.imageB64 mime (((pySplit ',' url).drop 1).headD [])]
      | none => [.text ("[图片: ".data ++ url.take 50 ++ "...]".data)]
    else [.text ("[图片: ".data ++ url ++ "]".data)]

/-- `AnthropicAdapter._convert_content_to_claude_format`. -/
def convert_content_to_claude_format (decodeOk : PyStr → Bool) :
    PyContent → List ClaudeBlock
  | .str s => [.text s]
  | .otherVal _ r => [.text r]
  | .items l =>
    l.foldr (fun item acc => anthropic_item_blocks decodeOk item ++ acc) []

theorem anthropic_item_blocks_shape (decodeOk : PyStr → Bool)
    (item : ContentItem) :
    ∀ b ∈ anthropic_item_blocks decodeOk item,
      (∃ t, b = ClaudeBlock.text t) ∨
      (∃ m d, b = ClaudeBlock.imageB64 m d) := by
  cases item with
  | text t => simp [anthropic_item_blocks]
  | other => simp [anthropic_item_blocks]
  | image_url url dl =>
    intro b hb
    simp only [anthropic_item_blocks] at hb
    split at hb
    · split at hb <;> simp at hb <;> subst hb <;> simp
    · simp at hb; subst hb; simp

/-- C7, counterexample.  The claim's third shape,
`{type: image, source: {type: url, url}}` for external URLs, is never
produced: an `image_url` part whose URL is `http://x` becomes the text
placeholder `[图片: http://x]`, not an image block. -/
theorem c7_counterexample :
    convert_content_to_claude_format (fun _ => true)
        (PyContent.items [ContentItem.image_url "http://x".data false]) =
      [ClaudeBlock.text "[图片: http://x]".data] ∧
    convert_content_to_claude_format (fun _ => true)
        (PyContent.items [ContentItem.image_url "http://x".data false]) ≠
      [ClaudeBlock.imageUrl "http://x".data] := by
  decide

/-- C7, amended.  Every block the Anthropic conversion emits is a text
block or a base64 image block (no url-sourced image blocks exist);
data-URL images whose extraction fails become a text placeholder holding
the first 50 characters of the URL, and images with any non-data URL
become a text placeholder holding the whole URL. -/
theorem c7_content_blocks (decodeOk : PyStr → Bool) (c : PyContent) :
    (∀ b ∈ convert_content_to_claude_format decodeOk c,
       (∃ t, b = ClaudeBlock.text t) ∨
       (∃ m d, b = ClaudeBlock.imageB64 m d)) ∧
    (∀ url dl, "data:".data.isPrefixOf url = true →
       extract_base64_mime decodeOk url = none →
       anthropic_item_blocks decodeOk (ContentItem.image_url url dl) =
         [ClaudeBlock.text ("[图片: ".data ++ url.take 50 ++ "...]".data)]) ∧
    (∀ url dl, "data:".data.isPrefixOf url = false →
       anthropic_item_blocks decodeOk (ContentItem.image_url url dl) =
         [ClaudeBlock.text ("[图片: ".data ++ url ++ "]".data)]) := by
  refine ⟨?_, ?_, ?_⟩
  · cases c with
    | str s => simp [convert_content_to_claude_format]
    | otherVal t r => simp [convert_content_to_claude_format]
    | items l =>
      induction l with
      | nil => simp [convert_content_to_claude_format]
      | cons item rest ih =>
        intro b hb
        simp only [convert_content_to_claude_format, List.foldr_cons,
          List.mem_append] at hb
        rcases hb with hb | hb
        · exact anthropic_item_blocks_shape decodeOk item b hb
        · exact ih b hb
  · intro url dl h1 h2
    simp [anthropic_item_blocks, h1, h2]
  · intro url dl h1
    simp [anthropic_item_blocks, h1]

/-- Witness for C7 (amended) at concrete inputs: a bad data URL yields a
50-character placeholder and an http URL yields a full-URL placeholder. -/
theorem c7_content_blocks_witness :
    "data:".data.isPrefixOf "data:image/png;base64".data = true ∧
    extract_base64_mime (fun _ => true) "data:image/png;base64".data = none ∧
    anthropic_item_blocks (fun _ => true)
        (ContentItem.image_url "data:image/png;base64".data false) =
      [ClaudeBlock.text
        ("[图片: ".data ++ "data:image/png;base64".data.take 50 ++
          "...]".data)] ∧
    anthropic_item_blocks (fun _ => true)
        (ContentItem.image_url "http://x".data false) =
      [ClaudeBlock.text ("[图片: ".data ++ "http://x".data ++ "]".data)] :=
  ⟨by decide, by decide,
   (c7_content_blocks (fun _ => true) (PyContent.str [])).2.1
     "data:image/png;base64".data false (by decide) (by decide),
   (c7_content_blocks (fun _ => true) (PyContent.str [])).2.2
     "http://x".data false (by decide)⟩

/- ### Key admission: `ApiKeyEncryption.validate_key_strength` in
`src/utils/crypto.py` and `ApiKeyService.create_api_key` /
`ApiKeyDAO.create_api_key`. -/

/-- The test-pattern substrings of `validate_key_strength`. -/
def test_patterns : List PyStr :=
  ["demo".data, "test".data, "example".data, "replace".data, "your-key".data]

/-- `ApiKeyEncryption.validate_key_strength`: empty, shorter than 10
characters, or containing a test pattern (case-insensitively) is
invalid. -/
def validate_key_strength (api_key : PyStr) : Bool :=
  if api_key.isEmpty then false
  else if api_key.length < 10 then false
  else
    match test_patterns.find? fun p => containsSub (pyLower api_key) p with
    | some _ => false
    | none => true

/-- The admission path for a new key with a valid provider:
`ApiKeyService.create_api_key` rejects `not api_key or
len(api_key.strip()) < 10`, then `ApiKeyDAO.create_api_key` runs
`validate_key_strength` on the stripped key before encrypting and
inserting. -/
def create_api_key_accepts (api_key : PyStr) : Bool :=
  if api_key.isEmpty || (pyStrip api_key).length < 10 then false
  else validate_key_strength (pyStrip api_key)

/-- C8, counterexample.  The claim's "iff" is stated on the raw candidate:
the 10-character key `abcdefghi ` (trailing blank) is neither empty, nor
shorter than 10, nor contains a test pattern, yet the admission path
rejects it, because both length checks run on the whitespace-stripped key
(9 characters). -/
theorem c8_counterexample :
    create_api_key_accepts "abcdefghi ".data = false ∧
    "abcdefghi ".data ≠ [] ∧
    "abcdefghi ".data.length = 10 ∧
    (test_patterns.find? fun p =>
      containsSub (pyLower "abcdefghi ".data) p) = none := by
  decide

/-- C8, amended.  The admission path accepts a candidate key (with a valid
provider) iff its whitespace-stripped form has at least 10 characters and
contains, case-insensitively, none of the test-pattern substrings `demo`,
`test`, `example`, `replace`, `your-key`; in particular no key whose
stripped form matches a test pattern is ever accepted. -/
theorem c8_admission_iff (api_key : PyStr) :
    create_api_key_accepts api_key = true ↔
      ((pyStrip api_key).length ≥ 10 ∧
       ∀ p ∈ test_patterns,
         containsSub (pyLower (pyStrip api_key)) p = false) := by
  unfold create_api_key_accepts validate_key_strength
  constructor
  · intro h
    split at h
    · exact absurd h (by simp)
    · rename_i hlen
      constructor
      · simp [not_or] at hlen; omega
      · intro p hp
        by_contra hc
        simp only [Bool.not_eq_false] at hc
        rcases hfind : test_patterns.find? fun q =>
            containsSub (pyLower (pyStrip api_key)) q with _ | q
        · exact absurd (List.find?_eq_none.mp hfind p hp) (by simp [hc])
        · rw [hfind] at h
          split at h
          · simp at h
          · simp at h
  · rintro ⟨hlen, hpat⟩
    have hne : (pyStrip api_key).isEmpty = false := by
      cases hs : pyStrip api_key with
      | nil => rw [hs] at hlen; simp at hlen
      | cons c cs => simp
    have hfind : (test_patterns.find? fun q =>
        containsSub (pyLower (pyStrip api_key)) q) = none :=
      List.find?_eq_none.mpr fun p hp => by simp [hpat p hp]
    have hke : api_key.isEmpty = false := by
      cases hk : api_key with
      | nil => rw [hk] at hlen; simp [pyStrip] at hlen
      | cons c cs => simp
    have hlt : ¬ ((pyStrip api_key).length < 10) := by omega
    simp [hke, hne, hfind, hlt]

/-- Witness for C8 (amended) at a concrete accepted key. -/
theorem c8_admission_iff_witness :
    create_api_key_accepts "sk-live-0a1b2c3d".data = true ∧
    create_api_key_accepts "sk-test-0a1b2c3d".data = false :=
  ⟨(c8_admission_iff "sk-live-0a1b2c3d".data).mpr (by decide), by decide⟩

/- ### DeepSeek adapter: `DeepSeekAdapter.adapt_request` in
`src/adapters/deepseek_adapter.py`, with
`MultimodalProcessor.extract_data_from_data_url`. -/

/-- Python `s.replace(pat, '')` for non-empty `pat` (non-overlapping,
left to right); an empty pattern keeps the string (the source only removes
the fixed non-empty markers `data:` and `;base64`). -/
def pyRemoveAll (pat : PyStr) : PyStr → PyStr
  | [] => []
  | c :: rest =>
    if pat.isEmpty then c :: pyRemoveAll pat rest
    else if pat.isPrefixOf (c :: rest) then
      pyRemoveAll pat (List.drop pat.length (c :: rest))
    else c :: pyRemoveAll pat rest
termination_by s => s.length
decreasing_by
  · simp
  · rename_i hne hpre
    have hp : 0 < pat.length := by
      cases pat with
      | nil => simp at hne
      | cons p ps => simp
    simp only [List.length_drop, List.length_cons]
    omega

/-- The parsed fields of a data URL. -/
structure DataUrlInfo where
  mime_type : PyStr
  data : PyStr
  is_base64 : Bool
  deriving Repr, DecidableEq

/-- `MultimodalProcessor.extract_data_from_data_url`: `none` when the URL
does not start with `data:` or has no comma (the unpacking `ValueError` is
caught and turned into `None`); otherwise the media type is the header
with `data:` and `;base64` removed (defaulting to `text/plain` when
empty), and the data is the raw remainder after the first comma. -/
def extract_data_from_data_url (url : PyStr) : Option DataUrlInfo :=
  if "data:".data.isPrefixOf url then
    match splitFirst ',' url with
    | none => none
    | some (header, data) =>
      let isB64 := containsSub header ";base64".data
      let mime :=
        if isB64 then pyRemoveAll ";base64".data (pyRemoveAll "data:".data header)
        else pyRemoveAll "data:".data header
      let mime := if mime.isEmpty then "text/plain".data else mime
      some ⟨mime, data, isB64⟩
  else none

/-- One content part inside
`DeepSeekAdapter._convert_content_to_claude_format`: text keeps its text;
a data-URL image becomes a base64 block (or is dropped when extraction
fails); any other URL becomes a url-sourced image block; other parts are
dropped. -/
def deepseek_item_blocks (item : ContentItem) : List ClaudeBlock :=
  match item with
  | .text t => [.text t]
  | .other => []
  | .image_url url _ =>
    if "data:".data.isPrefixOf url then
      match extract_data_from_data_url url with
      | some info => [.imageB64 info.mime_type info.data]
      | none => []
    else [.imageUrl url]

/-- `DeepSeekAdapter._convert_content_to_claude_format`. -/
def deepseek_convert_content : PyContent → List ClaudeBlock
  | .str s => [.text s]
  | .otherVal _ r => [.text r]
  | .items l => l.foldr (fun i acc => deepseek_item_blocks i ++ acc) []

/-- A canonical chat message. -/
structure PyMessage where
  role : PyStr
  content : PyContent
  deriving Repr, DecidableEq

/-- A Claude-shaped message after conversion. -/
structure ClaudeMessage where
  role : PyStr
  content : List ClaudeBlock
  deriving Repr, DecidableEq

/-- Python truthiness of a content value. -/
def pyTruthyContent : PyContent → Bool
  | .str s => !s.isEmpty
  | .items l => !l.isEmpty
  | .otherVal t _ => t

/-- Python `f"{content}"`: the string itself for `str` content; for other
values, the stdlib `str()` text carried by the embedding (`reprFn`). -/
def strOfContent (reprFn : PyContent → PyStr) : PyContent → PyStr
  | .str s => s
  | c => reprFn c

/-- `DeepSeekAdapter._convert_messages_to_claude_format`: the last
`system` message is remembered, `user`/`assistant` messages are converted
in order (other roles are dropped), and a truthy system content is then
prepended to the first message's leading text block when that first
message has role `user`. -/
def deepseek_convert_messages (reprFn : PyContent → PyStr)
    (messages : List PyMessage) : List ClaudeMessage :=
  let system_message : Option PyContent :=
    ((messages.filter fun m => m.role == "system".data).map
      fun m => m.content).getLast?
  let claude_messages : List ClaudeMessage :=
    (messages.filter fun m =>
      m.role == "user".data || m.role == "assistant".data).map
      fun m => ⟨m.role, deepseek_convert_content m.content⟩
  match system_message with
  | none => claude_messages
  | some sysc =>
    if pyTruthyContent sysc then
      match claude_messages with
      | [] => claude_messages
      | first :: rest =>
        if first.role == "user".data then
          match first.content with
          | ClaudeBlock.text t :: tblocks =>
            ⟨first.role,
             ClaudeBlock.text
               (strOfContent reprFn sysc ++ "\n\n".data ++ t) :: tblocks⟩ ::
              rest
          | _ => first :: rest
        else first :: rest
    else claude_messages

/-- A canonical (OpenAI-shaped) request: the keys `adapt_request` reads. -/
structure ChatRequest where
  model : Option PyStr := none
  max_tokens : Option Nat := none
  messages : Option (List PyMessage) := none
  temperature : Option ℚ := none
  top_p : Option ℚ := none
  stream : Option Bool := none
  stop : Option (Sum PyStr (List PyStr)) := none
  deriving DecidableEq

/-- The DeepSeek-bound (Anthropic-flavoured) request produced by
`adapt_request`. -/
structure DeepSeekRequest where
  model : PyStr
  max_tokens : Nat
  messages : Option (List ClaudeMessage) := none
  temperature : Option ℚ := none
  top_p : Option ℚ := none
  stream : Option Bool := none
  stop_sequences : Option (List PyStr) := none
  deriving DecidableEq

/-- `DeepSeekAdapter.adapt_request`.  `model = target_model or
request.get('model', 'deepseek-chat')` follows Python truthiness (an empty
target model falls through); both branches of the claude test assign
`deepseek-reasoner`. -/
def deepseek_adapt_request (reprFn : PyContent → PyStr)
    (request : ChatRequest) (target_model : Option PyStr) : DeepSeekRequest :=
  let model :=
    match target_model with
    | some t => if t.isEmpty then request.model.getD "deepseek-chat".data else t
    | none => request.model.getD "deepseek-chat".data
  { model :=
      if containsSub (pyLower model) "claude".data then "deepseek-reasoner".data
      else "deepseek-reasoner".data
    max_tokens := request.max_tokens.getD 4096
    messages := request.messages.map (deepseek_convert_messages reprFn)
    temperature := request.temperature
    top_p := request.top_p
    stream := request.stream
    stop_sequences := request.stop.map fun s =>
      match s with
      | .inl x => [x]
      | .inr l => l }

/-- C9.  For every canonical request and every declared target model
(including names not containing `claude`), the DeepSeek request
translation sets the outgoing `model` field to the constant
`deepseek-reasoner`: both branches of its claude test assign the same
constant. -/
theorem c9_deepseek_model_forced (reprFn : PyContent → PyStr)
    (request : ChatRequest) (target_model : Option PyStr) :
    (deepseek_adapt_request reprFn request target_model).model =
      "deepseek-reasoner".data := by
  simp [deepseek_adapt_request]

/- ### API-key encryption: `ApiKeyEncryption.encrypt_key` / `decrypt_key`
in `src/utils/crypto.py`.

`Fernet` comes from the external `cryptography` library, not from this
repository; it is modelled abstractly by a token function pair, and its
documented contract (decrypting a freshly produced token returns the
plaintext, tokens are byte strings) enters as hypotheses of the round-trip
theorem.  The repository's own contribution - the extra
`base64.urlsafe_b64encode` on the token and `base64.urlsafe_b64decode`
before decryption - is the executable codec proven above.  Key strings are
taken at the byte level (`str.encode`/`bytes.decode` are inverse on the
well-formed text involved). -/

structure FernetModel where
  enc : Bytes → Bytes
  dec : Bytes → Option Bytes

/-- `ApiKeyEncryption.encrypt_key`: Fernet-encrypt, then urlsafe-base64
encode the token. -/
def encrypt_key (F : FernetModel) (api_key : Bytes) : PyStr :=
  b64encode (F.enc api_key)

/-- `ApiKeyEncryption.decrypt_key`: urlsafe-base64 decode, then
Fernet-decrypt (`none` is the raised `ValueError`). -/
def decrypt_key (F : FernetModel) (encrypted_key : PyStr) : Option Bytes :=
  (b64decode encrypted_key).bind F.dec

/-- C10.  For every plaintext key and a fixed master secret (one Fernet
instance), decrypting the result of encrypting the key returns the key:
the repository's extra base64 layer round-trips (proved above for the
codec), and Fernet's own round trip is its documented contract, taken as
the hypotheses. -/
theorem c10_encrypt_decrypt_roundtrip (F : FernetModel) (k : Bytes)
    (henc : ∀ b ∈ F.enc k, b < 256)
    (hdec : F.dec (F.enc k) = some k) :
    decrypt_key F (encrypt_key F k) = some k := by
  unfold decrypt_key encrypt_key
  rw [b64decode_b64encode _ henc, Option.some_bind, hdec]

/-- An identity token pair satisfying the Fernet contract, for the
witness. -/
def idFernet : FernetModel := ⟨fun b => b, fun b => some b⟩

/-- Witness for C10 on the bytes of `hello`. -/
theorem c10_encrypt_decrypt_roundtrip_witness :
    (∀ b ∈ idFernet.enc [104, 101, 108, 108, 111], b < 256) ∧
    decrypt_key idFernet (encrypt_key idFernet [104, 101, 108, 108, 111]) =
      some [104, 101, 108, 108, 111] :=
  ⟨by decide,
   c10_encrypt_decrypt_roundtrip idFernet [104, 101, 108, 108, 111]
     (by decide) (by decide)⟩
